import Mathlib

/-!
Shallow embedding of `src/plugins/audio-visualizer-luna/src/index.ts`
(TidalLuna audio-visualizer plugin).

The plugin's module-level mutable variables (`audioContext`, `analyser`,
`audioSource`, `dataArray`, `currentAudioElement`, `isSourceConnected`,
plus the UI/animation handles) are modelled as an explicit `VizState`
record threaded through pure functions.  Browser API outcomes that the
code observes only through success or a thrown exception (whether
`createMediaElementSource`/`connect` throws, whether `captureStream`
exists, ...) are modelled as boolean fields of an environment record.
Media elements are identified by natural-number ids; `Option Nat` models
a possibly-null element reference.  JavaScript numbers are modelled as
exact rationals (`ℚ`); `Math.sin` and `Math.PI` are runtime-supplied
values, modelled as an abstract function `ℚ → ℚ` and an abstract
constant carried in a `WaveEnv` record.
-/

namespace AudioVisualizer

/-- The module-level mutable state of `index.ts`: which audio-graph
objects exist (`audioContext`, `analyser`, `dataArray`, `audioSource`
non-null?), the recorded media element (`currentAudioElement`), the
connection flag (`isSourceConnected`), and whether the UI container and
the animation callback are live (`visualizerContainer`/`animationId`
non-null?). -/
structure VizState where
  audioContext : Bool
  analyser : Bool
  dataArray : Bool
  audioSource : Bool
  currentAudioElement : Option Nat
  isSourceConnected : Bool
  uiExists : Bool
  animationRunning : Bool
deriving Repr, DecidableEq

/-- All module variables start null / false. -/
def VizState.initial : VizState :=
  ⟨false, false, false, false, none, false, false, false⟩

/-- Environment for one call of the acquisition routine
(`initializeAudioVisualizer` in the source): what `findAudioElement`
returns, which of the browser-API steps throw, whether
`captureStream`/`mozCaptureStream` yields a stream, and whether the DOM
anchor (`_searchField` input) for the UI is present. -/
structure InitEnv where
  foundElement : Option Nat
  createElementSourceThrows : Bool
  elementSourceConnectThrows : Bool
  captureStreamAvailable : Bool
  createStreamSourceThrows : Bool
  streamSourceConnectThrows : Bool
  searchFieldFound : Bool
deriving Repr, DecidableEq

/-- Which signal path the acquisition routine connected on this call. -/
inductive ConnPath
  | direct
  | fallback
deriving Repr, DecidableEq

/-- Observable outcome of one acquisition call: resulting module state,
how many connection attempts ran (the direct-tap try block and the
stream-capture try block count one each), how many Web Audio source
nodes were created, and which path (if any) connected on this call. -/
structure InitResult where
  state : VizState
  connectionAttempts : Nat
  sourcesCreated : Nat
  connectedVia : Option ConnPath
deriving Repr, DecidableEq

/-- `createVisualizerUI` (source lines 176–237): removes any existing
container, then recreates it next to the search field when the anchor is
found; `config.enabled` is the constant `true` in the source. -/
def createVisualizerUI (anchorFound : Bool) (s : VizState) : VizState :=
  let s1 := { s with uiExists := false }
  if anchorFound then { s1 with uiExists := true } else s1

/-- Tail of a successful acquisition call (source lines 154–168): resume
the context (fire-and-forget, no modelled state), create the UI if
absent, start the animation if not running (`animate` keeps running only
when the canvas exists). -/
def finishInit (env : InitEnv) (s : VizState) : VizState :=
  let s1 := if s.uiExists then s else createVisualizerUI env.searchFieldFound s
  if s1.animationRunning then s1 else { s1 with animationRunning := s1.uiExists }

/-- The stream-capture fallback (source lines 125–146), entered after the
direct tap threw: `captureStream?.() || mozCaptureStream?.()` missing
throws "captureStream not supported"; otherwise `createMediaStreamSource`
and `connect` may throw.  On any failure the routine logs and returns
early, leaving state untouched; on success it falls through to record the
element and set `isSourceConnected` (lines 149–150). -/
def fallbackCapture (env : InitEnv) (el : Nat) (s : VizState)
    (attempts created : Nat) : InitResult :=
  if env.captureStreamAvailable then
    if env.createStreamSourceThrows then
      ⟨s, attempts + 1, created, none⟩
    else if env.streamSourceConnectThrows then
      ⟨s, attempts + 1, created + 1, none⟩
    else
      let s' := { s with currentAudioElement := some el, isSourceConnected := true }
      ⟨finishInit env s', attempts + 1, created + 1, some ConnPath.fallback⟩
  else
    ⟨s, attempts + 1, created, none⟩

/-- The acquisition routine, `initializeAudioVisualizer` (source lines
90–173).  Finds an element (or returns), lazily creates the
`AudioContext` and the `AnalyserNode` (with its `dataArray`), and — only
when no source is connected and the element differs from the recorded
one — attempts the direct element tap, falling back to stream capture
when the direct tap throws.  The whole body sits in a `try/catch`, so the
routine is total: it always returns an `InitResult`, never an
exception. -/
def initAudioVisualizer (env : InitEnv) (s : VizState) : InitResult :=
  match env.foundElement with
  | none => ⟨s, 0, 0, none⟩
  | some el =>
    let s1 := { s with audioContext := true }
    let s2 := if s1.analyser then s1
      else { s1 with analyser := true, dataArray := true }
    if ¬ s2.isSourceConnected ∧ some el ≠ s2.currentAudioElement then
      if env.createElementSourceThrows then
        fallbackCapture env el s2 1 0
      else
        let s3 := { s2 with audioSource := true }
        if env.elementSourceConnectThrows then
          fallbackCapture env el s3 1 1
        else
          let s4 := { s3 with currentAudioElement := some el, isSourceConnected := true }
          ⟨finishInit env s4, 1, 1, some ConnPath.direct⟩
    else
      ⟨finishInit env s2, 0, 0, none⟩

/-- `cleanupAudioVisualizer` (source lines 456–467): cancels the
animation frame and removes the UI; deliberately does not touch the
audio connections. -/
def cleanupAudioVisualizer (s : VizState) : VizState :=
  { s with animationRunning := false, uiExists := false }

/-- `completeCleanup` (source lines 535–568): stops the animation,
removes the UI, disconnects the audio source (already-disconnected
errors are caught), closes the context, and nulls every module
reference. -/
def completeCleanup (_s : VizState) : VizState :=
  VizState.initial

/-- `updateAudioVisualizer` (source lines 433–450): refreshes the
analyser parameters and recreates `dataArray` when the analyser exists,
resizes the canvas, and recreates the UI. -/
def updateAudioVisualizer (anchorFound : Bool) (s : VizState) : VizState :=
  let s1 := if s.analyser then { s with dataArray := true } else s
  createVisualizerUI anchorFound s1

/-! ### Analysis sampler: silence classification (source lines 260–268) -/

/-- Sum of all frequency-bin magnitudes of a snapshot,
`dataArray.reduce((sum, val) => sum + val, 0)` in the source. -/
def snapshotSum (snapshot : List Nat) : Nat :=
  snapshot.foldl (fun sum val => sum + val) 0

/-- `avgVolume`: arithmetic mean of the bin magnitudes, as an exact
rational (the source divides the reduce-sum by `dataArray.length`). -/
def avgVolume (snapshot : List Nat) : ℚ :=
  (snapshotSum snapshot : ℚ) / (snapshot.length : ℚ)

/-- `hasRealAudio = avgVolume > 5` (source line 267). -/
def hasRealAudio (snapshot : List Nat) : Bool :=
  decide ((5 : ℚ) < avgVolume snapshot)

/-- The frame is classified silent exactly when `hasRealAudio` is false:
the idle scrolling wave is drawn instead of the audio bars. -/
def isSilent (snapshot : List Nat) : Bool :=
  ! hasRealAudio snapshot

/-! ### Render configuration and bar geometry -/

/-- One rectangle painted by `fillRect` / `drawRoundedRect`:
position `(x, y)` and painted width/height. -/
structure BarRect where
  x : ℚ
  y : ℚ
  w : ℚ
  h : ℚ
deriving Repr, DecidableEq

/-- The drawing-relevant fields of the `config` object: canvas
width/height, live `barCount` and `barRounding` from settings, and the
constant `sensitivity`. -/
structure DrawConfig where
  width : ℚ
  height : ℚ
  barCount : Nat
  sensitivity : ℚ
  barRounding : Bool
deriving Repr, DecidableEq

/-- The source's `config` literal: `width: 200`, `height: 40`,
`sensitivity: 1.5`; `barCount` and `barRounding` are live-read from
settings. -/
def liveConfig (barCount : Nat) (barRounding : Bool) : DrawConfig :=
  ⟨200, 40, barCount, 3 / 2, barRounding⟩

/-- One iteration of the loop body of `drawBars` (source lines 360–373):
`dataIndex = Math.floor(i * (dataArray.length / config.barCount))`,
`barHeight = dataArray[dataIndex] * config.sensitivity * heightScale`,
bar at `x = i * barWidth`, `y = canvas.height - barHeight`, painted
width `barWidth - 1`. -/
def barRect (cfg : DrawConfig) (snapshot : List Nat) (i : Nat) : BarRect :=
  let barWidth : ℚ := cfg.width / (cfg.barCount : ℚ)
  let heightScale : ℚ := cfg.height / 255
  let dataIndex : Nat :=
    Int.toNat ⌊(i : ℚ) * ((snapshot.length : ℚ) / (cfg.barCount : ℚ))⌋
  let barHeight : ℚ := (snapshot.getD dataIndex 0 : ℚ) * cfg.sensitivity * heightScale
  ⟨(i : ℚ) * barWidth, cfg.height - barHeight, barWidth - 1, barHeight⟩

/-- `drawBars` (source lines 352–374): one rectangle per
`i < config.barCount` (rounded or square, same geometry either way). -/
def drawBars (cfg : DrawConfig) (snapshot : List Nat) : List BarRect :=
  (List.range cfg.barCount).map (barRect cfg snapshot)

/-! ### Idle scrolling wave (source lines 294–349) -/

/-- The runtime's trig facilities: `Math.sin` as an abstract function on
rationals and `Math.PI` as an abstract rational constant (JavaScript
evaluates both in floating point; the only property the code relies on
is the sine range). -/
structure WaveEnv where
  sin : ℚ → ℚ
  pi : ℚ

/-- A `WaveEnv` is faithful when its sine stays within `[-1, 1]`. -/
def WaveEnv.SinBounded (env : WaveEnv) : Prop :=
  ∀ x : ℚ, -1 ≤ env.sin x ∧ env.sin x ≤ 1

/-- One iteration of the loop body of `drawScrollingWave` (source lines
323–348), at wave time `t` (the value of `waveTime` after this frame's
`+= 0.05`): three sine components, the combined normalised wave, the
traveling-wave envelope, and the final bar rectangle. -/
def waveBar (env : WaveEnv) (cfg : DrawConfig) (t : ℚ) (i : Nat) : BarRect :=
  let barWidth : ℚ := cfg.width / (cfg.barCount : ℚ)
  let maxHeight : ℚ := cfg.height * (6 / 10)
  let x : ℚ := (i : ℚ) / (cfg.barCount : ℚ)
  let wave1 := env.sin (x * env.pi * 2 + t) * (3 / 10)
  let wave2 := env.sin (x * env.pi * 4 + t * (13 / 10)) * (2 / 10)
  let wave3 := env.sin (x * env.pi * 6 + t * (7 / 10)) * (1 / 10)
  let combinedWave := (wave1 + wave2 + wave3 + 1) / 2
  let travelWave := env.sin (x * env.pi * 3 - t * 2) * (1 / 2) + 1 / 2
  let barHeight := maxHeight * combinedWave * travelWave * (8 / 10) + 2
  ⟨(i : ℚ) * barWidth, (cfg.height - barHeight) / 2, barWidth - 1, barHeight⟩

/-- `drawScrollingWave` (source lines 312–349): advances the module
variable `waveTime` by `0.05` and draws one bar per `i < barCount`;
returns the new wave time together with the painted rectangles. -/
def drawScrollingWave (env : WaveEnv) (cfg : DrawConfig) (waveTime : ℚ) :
    ℚ × List BarRect :=
  let t := waveTime + 1 / 20
  (t, (List.range cfg.barCount).map (waveBar env cfg t))

/-- Wave time and the latest frame's bars after `n` consecutive idle
frames, starting from the module initialiser `waveTime = 0`; each frame
runs `drawScrollingWave` on the previous wave time. -/
def idleTrace (env : WaveEnv) (cfg : DrawConfig) : Nat → ℚ × List BarRect
  | 0 => (0, [])
  | n + 1 => drawScrollingWave env cfg (idleTrace env cfg n).1

/-- The spec's closed form for the idle-wave bar heights on the fixed
200×40 surface: the height of bar `i` after `ticks` fixed `0.05`
time-steps, as a pure function of the index, the tick count and the bar
count (`maxHeight = 40 · 0.6 = 24`). -/
def idlePureHeight (env : WaveEnv) (barCount i ticks : Nat) : ℚ :=
  let t : ℚ := (ticks : ℚ) / 20
  let x : ℚ := (i : ℚ) / (barCount : ℚ)
  let wave1 := env.sin (x * env.pi * 2 + t) * (3 / 10)
  let wave2 := env.sin (x * env.pi * 4 + t * (13 / 10)) * (2 / 10)
  let wave3 := env.sin (x * env.pi * 6 + t * (7 / 10)) * (1 / 10)
  let combinedWave := (wave1 + wave2 + wave3 + 1) / 2
  let travelWave := env.sin (x * env.pi * 3 - t * 2) * (1 / 2) + 1 / 2
  24 * combinedWave * travelWave * (8 / 10) + 2

/-! ### The render frame, `animate` (source lines 250–292) -/

/-- Environment of one `animate` call: whether the canvas and its 2D
context exist, whether the analyser and `dataArray` are non-null, the
frequency snapshot `getByteFrequencyData` fills in, the live settings,
the trig runtime, and which frame steps throw at runtime. -/
structure FrameEnv where
  surfaceExists : Bool
  analyserPresent : Bool
  dataArrayPresent : Bool
  snapshot : List Nat
  barCount : Nat
  barRounding : Bool
  wave : WaveEnv
  sampleThrows : Bool
  clearThrows : Bool
  drawThrows : Bool

/-- Observable outcome of one successfully completed `animate` frame:
whether the canvas was cleared, the rectangles painted, whether the idle
wave (rather than the audio bars) was drawn, whether
`requestAnimationFrame` was called for the next frame, and whether
`animationId` was set to null. -/
structure FrameResult where
  cleared : Bool
  bars : List BarRect
  usedIdle : Bool
  scheduledNext : Bool
  animationStopped : Bool
deriving Repr, DecidableEq

/-- `animate` (source lines 250–292).  With no canvas/context it nulls
`animationId` and returns.  Otherwise it samples the analyser (when
analyser and `dataArray` exist) to classify silence, clears the canvas,
draws either the frequency bars or the idle scrolling wave, and only
then — as its final statement — schedules the next frame.  The body has
no `try`/`catch`, so a step that throws is modelled as `Except.error`:
the exception escapes the frame callback and the scheduling line is
never reached.  Returns the updated `waveTime` alongside the frame
outcome. -/
def animate (env : FrameEnv) (waveTime : ℚ) : Except String (ℚ × FrameResult) :=
  if ¬ env.surfaceExists then
    Except.ok (waveTime, ⟨false, [], false, false, true⟩)
  else
    let sampled : Except String Bool :=
      if env.analyserPresent ∧ env.dataArrayPresent then
        if env.sampleThrows then Except.error "sample" else
        Except.ok (hasRealAudio env.snapshot)
      else Except.ok false
    match sampled with
    | Except.error e => Except.error e
    | Except.ok hasAudio =>
      if env.clearThrows then Except.error "clear"
      else
        let cfg := liveConfig env.barCount env.barRounding
        if hasAudio ∧ env.analyserPresent ∧ env.dataArrayPresent then
          if env.drawThrows then Except.error "draw"
          else Except.ok (waveTime, ⟨true, drawBars cfg env.snapshot, false, true, false⟩)
        else
          if env.drawThrows then Except.error "draw"
          else
            let r := drawScrollingWave env.wave cfg waveTime
            Except.ok (r.1, ⟨true, r.2, true, true, false⟩)

/-! ### Lifecycle controller, `observePlayState` (source lines 470–516) -/

/-- Outcome of one `checkAndInitialize` poll: the new value of the
`hasTriedInitialization` flag (after the acquisition promise's `.then`
handler has run, which either confirms `audioContext && analyser` or
resets the flag), the new module state, and how many acquisition calls
the poll made. -/
structure PollResult where
  hasTried : Bool
  state : VizState
  attempts : Nat
deriving Repr, DecidableEq

/-- One `checkAndInitialize` poll (source lines 474–499): when playing
and not yet tried, run the acquisition routine and keep the flag set
exactly when `audioContext` and `analyser` exist afterwards; when not
playing and the flag is set, reset it; finally restart the animation if
it is not running (`animate` stays running only when the canvas
exists). -/
def checkAndInit (playing : Bool) (env : InitEnv) (hasTried : Bool)
    (s : VizState) : PollResult :=
  let r : PollResult :=
    if playing ∧ ¬ hasTried then
      let ir := initAudioVisualizer env s
      ⟨ir.state.audioContext ∧ ir.state.analyser, ir.state, 1⟩
    else if ¬ playing ∧ hasTried then
      ⟨false, s, 0⟩
    else
      ⟨hasTried, s, 0⟩
  if r.state.animationRunning then r
  else ⟨r.hasTried, { r.state with animationRunning := r.state.uiExists }, r.attempts⟩

/-- Folds a sequence of polled play-state values through
`checkAndInit`, all with the same acquisition environment, accumulating
the total number of acquisition calls. -/
def pollRunFrom (env : InitEnv) (hasTried : Bool) (s : VizState)
    (total : Nat) : List Bool → Bool × VizState × Nat
  | [] => (hasTried, s, total)
  | b :: rest =>
    let r := checkAndInit b env hasTried s
    pollRunFrom env r.hasTried r.state (total + r.attempts) rest

/-- A poll run from the initial module state (flag clear, nothing
created). -/
def pollRun (env : InitEnv) (trace : List Bool) : Bool × VizState × Nat :=
  pollRunFrom env false VizState.initial 0 trace

/-- Number of not-playing → playing transitions observed in a polled
play-state sequence, given the previously observed value. -/
def countTransitions : Bool → List Bool → Nat
  | _, [] => 0
  | prev, b :: rest =>
    (if b ∧ ¬ prev then 1 else 0) + countTransitions b rest

/-- Whether an `Except` outcome is an uncaught exception. -/
def isError {e a : Type} : Except e a → Bool
  | Except.error _ => true
  | Except.ok _ => false

/-- A concrete trig runtime (constant-zero sine), used to evaluate the
wave definitions at concrete inputs. -/
def zeroWave : WaveEnv := ⟨fun _ => 0, 0⟩

/-! ## Helper lemmas -/

theorem getD_range_map {α : Type} (f : Nat → α) (n i : Nat) (d : α) (h : i < n) :
    ((List.range n).map f).getD i d = f i := by
  simp [List.getD, List.getElem?_map, List.getElem?_range, h]

theorem foldl_add_eq (l : List Nat) :
    ∀ a : Nat, l.foldl (fun sum val => sum + val) a = a + l.sum := by
  induction l with
  | nil => intro a; simp
  | cons x xs ih => intro a; simp [List.foldl, ih]; omega

theorem snapshotSum_eq_sum (l : List Nat) : snapshotSum l = l.sum := by
  simpa using foldl_add_eq l 0

theorem drawBars_getD (cfg : DrawConfig) (snapshot : List Nat) (i : Nat)
    (h : i < cfg.barCount) (d : BarRect) :
    (drawBars cfg snapshot).getD i d = barRect cfg snapshot i :=
  getD_range_map _ _ _ _ h

theorem zeroWave_bounded : zeroWave.SinBounded := by
  intro x
  constructor <;> norm_num [zeroWave]

/-- With any sine bounded by `[-1, 1]` and a non-negative surface
height, every idle-wave bar height is at least the 2-pixel floor added
in the height formula. -/
theorem waveBar_height_ge_two (env : WaveEnv) (henv : env.SinBounded)
    (cfg : DrawConfig) (hh : 0 ≤ cfg.height) (t : ℚ) (i : Nat) :
    2 ≤ (waveBar env cfg t i).h := by
  simp only [waveBar]
  apply le_add_of_nonneg_left
  obtain ⟨h1l, h1u⟩ := henv ((i : ℚ) / (cfg.barCount : ℚ) * env.pi * 2 + t)
  obtain ⟨h2l, h2u⟩ := henv ((i : ℚ) / (cfg.barCount : ℚ) * env.pi * 4 + t * (13 / 10))
  obtain ⟨h3l, h3u⟩ := henv ((i : ℚ) / (cfg.barCount : ℚ) * env.pi * 6 + t * (7 / 10))
  obtain ⟨h4l, h4u⟩ := henv ((i : ℚ) / (cfg.barCount : ℚ) * env.pi * 3 - t * 2)
  have hC : 0 ≤ (env.sin ((i : ℚ) / (cfg.barCount : ℚ) * env.pi * 2 + t) * (3 / 10)
      + env.sin ((i : ℚ) / (cfg.barCount : ℚ) * env.pi * 4 + t * (13 / 10)) * (2 / 10)
      + env.sin ((i : ℚ) / (cfg.barCount : ℚ) * env.pi * 6 + t * (7 / 10)) * (1 / 10) + 1) / 2 := by
    nlinarith
  have hT : 0 ≤ env.sin ((i : ℚ) / (cfg.barCount : ℚ) * env.pi * 3 - t * 2) * (1 / 2) + 1 / 2 := by
    linarith
  have hM : 0 ≤ cfg.height * (6 / 10) := by linarith
  exact mul_nonneg (mul_nonneg (mul_nonneg hM hC) hT) (by norm_num)

/-- The wave time after `n` idle frames is `n · 0.05`. -/
theorem idleTrace_time (env : WaveEnv) (cfg : DrawConfig) :
    ∀ n : Nat, (idleTrace env cfg n).1 = (n : ℚ) / 20
  | 0 => by simp [idleTrace]
  | n + 1 => by
    have ih := idleTrace_time env cfg n
    simp only [idleTrace, drawScrollingWave, ih]
    push_cast
    ring

/-- On the fixed 200×40 surface, the loop-body bar height at wave time
`k/20` coincides with the spec's closed-form pure function. -/
theorem waveBar_h_pure (env : WaveEnv) (bc : Nat) (r : Bool) (i k : Nat) :
    (waveBar env (liveConfig bc r) (((k : Nat) : ℚ) / 20) i).h = idlePureHeight env bc i k := by
  simp only [waveBar, idlePureHeight, liveConfig]
  norm_num

/-! ## Claim theorems -/

/-- C1: in the acquisition routine, when a media element is found, no
source is yet connected, and the element differs from the currently
tapped one, if the direct element tap (`createMediaElementSource` +
`connect`) throws but the stream-capture fallback succeeds, the state
still reaches connected: `isSourceConnected = true`, the handle is
recorded in `currentAudioElement`, and the connection was made via the
fallback path. -/
theorem fallback_connects (env : InitEnv) (s : VizState) (el : Nat)
    (hfound : env.foundElement = some el)
    (hconn : s.isSourceConnected = false)
    (hel : some el ≠ s.currentAudioElement)
    (hdirect : env.createElementSourceThrows = true ∨ env.elementSourceConnectThrows = true)
    (hcap : env.captureStreamAvailable = true)
    (hcs : env.createStreamSourceThrows = false)
    (hsc : env.streamSourceConnectThrows = false) :
    (initAudioVisualizer env s).state.isSourceConnected = true
    ∧ (initAudioVisualizer env s).state.currentAudioElement = some el
    ∧ (initAudioVisualizer env s).connectedVia = some ConnPath.fallback := by
  rcases hdirect with hd | hd <;>
    simp [initAudioVisualizer, fallbackCapture, finishInit, createVisualizerUI,
      hfound, hconn, hel, hcap, hcs, hsc, hd] <;>
    split_ifs <;>
    simp_all

/-- Witness for C1: from the initial state, with the direct tap throwing
at `createMediaElementSource` and stream capture available and working,
element 7 gets connected via the fallback. -/
theorem fallback_connects_witness :
    (initAudioVisualizer ⟨some 7, true, false, true, false, false, true⟩ VizState.initial).state.isSourceConnected = true
    ∧ (initAudioVisualizer ⟨some 7, true, false, true, false, false, true⟩ VizState.initial).state.currentAudioElement = some 7
    ∧ (initAudioVisualizer ⟨some 7, true, false, true, false, false, true⟩ VizState.initial).connectedVia = some ConnPath.fallback :=
  fallback_connects _ VizState.initial 7 rfl rfl (by decide) (Or.inl rfl) rfl rfl rfl

/-- C2: when the direct element tap throws and the stream-capture
fallback also fails (or stream capture is unsupported), the acquisition
routine leaves the audio path unconnected: `isSourceConnected` stays
false, `currentAudioElement` is unchanged from before the call, and no
path is reported connected.  The routine is a total function (its whole
body is wrapped in the source's `try`/`catch`), so the failure is
non-fatal: no exception escapes. -/
theorem both_taps_fail_unconnected (env : InitEnv) (s : VizState)
    (hconn : s.isSourceConnected = false)
    (hdirect : env.createElementSourceThrows = true ∨ env.elementSourceConnectThrows = true)
    (hfb : env.captureStreamAvailable = false ∨ env.createStreamSourceThrows = true
        ∨ env.streamSourceConnectThrows = true) :
    (initAudioVisualizer env s).state.isSourceConnected = false
    ∧ (initAudioVisualizer env s).state.currentAudioElement = s.currentAudioElement
    ∧ (initAudioVisualizer env s).connectedVia = none := by
  rcases hfound : env.foundElement with _ | el
  · simp [initAudioVisualizer, hfound, hconn]
  · rcases hdirect with hd | hd <;> rcases hfb with hf | hf | hf <;>
      simp [initAudioVisualizer, fallbackCapture, finishInit, createVisualizerUI,
        hfound, hconn, hd, hf] <;>
      split_ifs <;>
      simp_all

/-- Witness for C2: from the initial state, with the direct tap throwing
and stream capture unsupported, the state stays unconnected and the
recorded element stays null. -/
theorem both_taps_fail_unconnected_witness :
    (initAudioVisualizer ⟨some 7, true, false, false, false, false, true⟩ VizState.initial).state.isSourceConnected = false
    ∧ (initAudioVisualizer ⟨some 7, true, false, false, false, false, true⟩ VizState.initial).state.currentAudioElement = none
    ∧ (initAudioVisualizer ⟨some 7, true, false, false, false, false, true⟩ VizState.initial).connectedVia = none :=
  both_taps_fail_unconnected _ VizState.initial rfl (Or.inl rfl) (Or.inl rfl)

/-- C3: once a source is connected, every later acquisition call makes
zero connection attempts and creates no new source node, and leaves the
connection flag, the recorded element and the source reference as they
were; the non-shutdown cleanup (`cleanupAudioVisualizer`) and the
settings-update routine leave the audio connection intact; only the
full-shutdown cleanup (`completeCleanup`) tears it down. -/
theorem connected_idempotent (env : InitEnv) (s : VizState)
    (hconn : s.isSourceConnected = true) :
    (initAudioVisualizer env s).connectionAttempts = 0
    ∧ (initAudioVisualizer env s).sourcesCreated = 0
    ∧ (initAudioVisualizer env s).state.isSourceConnected = true
    ∧ (initAudioVisualizer env s).state.currentAudioElement = s.currentAudioElement
    ∧ (initAudioVisualizer env s).state.audioSource = s.audioSource
    ∧ (cleanupAudioVisualizer s).isSourceConnected = s.isSourceConnected
    ∧ (cleanupAudioVisualizer s).currentAudioElement = s.currentAudioElement
    ∧ (cleanupAudioVisualizer s).audioSource = s.audioSource
    ∧ (∀ anchorFound : Bool,
        (updateAudioVisualizer anchorFound s).isSourceConnected = s.isSourceConnected
        ∧ (updateAudioVisualizer anchorFound s).currentAudioElement = s.currentAudioElement
        ∧ (updateAudioVisualizer anchorFound s).audioSource = s.audioSource)
    ∧ (completeCleanup s).isSourceConnected = false := by
  have hinit : (initAudioVisualizer env s).connectionAttempts = 0
      ∧ (initAudioVisualizer env s).sourcesCreated = 0
      ∧ (initAudioVisualizer env s).state.isSourceConnected = true
      ∧ (initAudioVisualizer env s).state.currentAudioElement = s.currentAudioElement
      ∧ (initAudioVisualizer env s).state.audioSource = s.audioSource := by
    rcases hfound : env.foundElement with _ | el
    · simp [initAudioVisualizer, hfound, hconn]
    · simp [initAudioVisualizer, finishInit, createVisualizerUI, hfound, hconn] <;>
        split_ifs <;> simp_all
  refine ⟨hinit.1, hinit.2.1, hinit.2.2.1, hinit.2.2.2.1, hinit.2.2.2.2, rfl, rfl, rfl, ?_, rfl⟩
  intro anchorFound
  simp [updateAudioVisualizer, createVisualizerUI]
  split_ifs <;> simp

/-- Witness for C3: in a connected state recorded on element 7, an
acquisition call that finds element 9 still makes zero connection
attempts. -/
theorem connected_idempotent_witness :
    (initAudioVisualizer ⟨some 9, false, false, false, false, false, true⟩
        { VizState.initial with isSourceConnected := true, currentAudioElement := some 7 }).connectionAttempts = 0 :=
  (connected_idempotent _ _ rfl).1

/-- C4: the silence classifier computes the arithmetic mean of all
frequency-bin magnitudes and classifies the snapshot as silent exactly
when the mean is ≤ 5 (on the 0–255 scale); every all-zero snapshot is
classified silent, and every snapshot with mean magnitude 200 is
classified non-silent. -/
theorem silence_classifier_spec :
    (∀ snapshot : List Nat, isSilent snapshot = true ↔ avgVolume snapshot ≤ 5)
    ∧ (∀ snapshot : List Nat, (∀ v ∈ snapshot, v = 0) → isSilent snapshot = true)
    ∧ (∀ snapshot : List Nat, avgVolume snapshot = 200 → isSilent snapshot = false) := by
  have hiff : ∀ snapshot : List Nat, isSilent snapshot = true ↔ avgVolume snapshot ≤ 5 := by
    intro snap
    simp [isSilent, hasRealAudio, not_lt]
  refine ⟨hiff, ?_, ?_⟩
  · intro snap h
    rw [hiff]
    have hz : snapshotSum snap = 0 := by
      rw [snapshotSum_eq_sum]
      exact List.sum_eq_zero h
    rw [avgVolume, hz]
    norm_num
  · intro snap h
    have := (hiff snap).mp
    by_contra hcon
    simp only [Bool.not_eq_false] at hcon
    have h5 := this hcon
    rw [h] at h5
    norm_num at h5

/-- Witness for C4: `[0, 0, 0]` is classified silent and `[200]` (mean
200) is classified non-silent. -/
theorem silence_classifier_spec_witness :
    isSilent [0, 0, 0] = true ∧ isSilent [200] = false :=
  ⟨silence_classifier_spec.2.1 [0, 0, 0] (by decide),
   silence_classifier_spec.2.2 [200] (by norm_num [avgVolume, snapshotSum])⟩

/-- C5: in bars mode, bar `i` has height
`snapshot[floor(i · bins/barCount)] · sensitivity · (surfaceHeight/255)`,
painted width `surfaceWidth/barCount − 1` (1-pixel gutter out of a
`surfaceWidth/barCount` slot), and starts at
`x = i · (surfaceWidth/barCount)`; for `barCount = 50` on the 200-pixel
surface every painted bar is 3 px wide (`x = 4·i`) and the 50 slots end
exactly at the full surface width. -/
theorem drawBars_geometry (cfg : DrawConfig) (snapshot : List Nat) (i : Nat)
    (h : i < cfg.barCount) :
    ((drawBars cfg snapshot).getD i ⟨0, 0, 0, 0⟩).h
        = (snapshot.getD (Int.toNat ⌊((i * snapshot.length : Nat) : ℚ) / (cfg.barCount : ℚ)⌋) 0 : ℚ)
          * cfg.sensitivity * (cfg.height / 255)
    ∧ ((drawBars cfg snapshot).getD i ⟨0, 0, 0, 0⟩).w = cfg.width / (cfg.barCount : ℚ) - 1
    ∧ ((drawBars cfg snapshot).getD i ⟨0, 0, 0, 0⟩).x = (i : ℚ) * (cfg.width / (cfg.barCount : ℚ))
    ∧ (∀ (r : Bool) (snap2 : List Nat) (j : Nat), j < 50 →
        ((drawBars (liveConfig 50 r) snap2).getD j ⟨0, 0, 0, 0⟩).w = 3
        ∧ ((drawBars (liveConfig 50 r) snap2).getD j ⟨0, 0, 0, 0⟩).x = (j : ℚ) * 4)
    ∧ (∀ (r : Bool) (snap2 : List Nat),
        ((drawBars (liveConfig 50 r) snap2).getD 49 ⟨0, 0, 0, 0⟩).x + 200 / 50 = 200) := by
  rw [drawBars_getD cfg snapshot i h]
  have hidx : (i : ℚ) * ((snapshot.length : ℚ) / (cfg.barCount : ℚ))
      = ((i * snapshot.length : Nat) : ℚ) / (cfg.barCount : ℚ) := by
    push_cast
    ring
  refine ⟨?_, rfl, rfl, ?_, ?_⟩
  · simp only [barRect]
    rw [hidx]
  · intro r snap2 j hj
    rw [drawBars_getD _ _ j (by simpa [liveConfig] using hj)]
    constructor
    · simp [barRect, liveConfig]
      norm_num
    · simp only [barRect, liveConfig]
      norm_num
  · intro r snap2
    rw [drawBars_getD _ _ 49 (by norm_num [liveConfig])]
    simp [barRect, liveConfig]
    norm_num

/-- Witness for C5: with 4 bars on the 200-pixel surface, bar 2's
painted width is the slot width minus the 1-pixel gutter. -/
theorem drawBars_geometry_witness :
    ((drawBars (liveConfig 4 false) [5]).getD 2 ⟨0, 0, 0, 0⟩).w
      = (liveConfig 4 false).width / ((liveConfig 4 false).barCount : ℚ) - 1 :=
  (drawBars_geometry (liveConfig 4 false) [5] 2 (by norm_num [liveConfig])).2.1

/-- C6: for every configuration with `barCount ≥ 1`, both the bars-mode
frame and the idle scrolling-wave frame issue exactly `barCount` bar
draw calls; every bars-mode height is non-negative, and every idle-wave
height is at least 2 pixels (hence also non-negative). -/
theorem frame_draw_calls (env : WaveEnv) (henv : env.SinBounded)
    (barCount : Nat) (hbc : 1 ≤ barCount) (rounding : Bool)
    (snapshot : List Nat) (t : ℚ) :
    (drawBars (liveConfig barCount rounding) snapshot).length = barCount
    ∧ (∀ b ∈ drawBars (liveConfig barCount rounding) snapshot, 0 ≤ b.h)
    ∧ (drawScrollingWave env (liveConfig barCount rounding) t).2.length = barCount
    ∧ (∀ b ∈ (drawScrollingWave env (liveConfig barCount rounding) t).2, 2 ≤ b.h) := by
  refine ⟨by simp [drawBars, liveConfig], ?_, by simp [drawScrollingWave, liveConfig], ?_⟩
  · intro b hb
    simp only [drawBars, List.mem_map, List.mem_range] at hb
    obtain ⟨i, hi, rfl⟩ := hb
    simp only [barRect, liveConfig]
    positivity
  · intro b hb
    simp only [drawScrollingWave, List.mem_map, List.mem_range] at hb
    obtain ⟨i, hi, rfl⟩ := hb
    exact waveBar_height_ge_two env henv _ (by norm_num [liveConfig]) _ i

/-- Witness for C6: with 3 bars, both the bars frame and the idle frame
paint exactly 3 rectangles. -/
theorem frame_draw_calls_witness :
    (drawBars (liveConfig 3 false) [0, 100, 200]).length = 3
    ∧ (drawScrollingWave zeroWave (liveConfig 3 false) 0).2.length = 3 :=
  ⟨(frame_draw_calls zeroWave zeroWave_bounded 3 (by norm_num) false [0, 100, 200] 0).1,
   (frame_draw_calls zeroWave zeroWave_bounded 3 (by norm_num) false [0, 100, 200] 0).2.2.1⟩

/-- C7: the idle scrolling wave is deterministic: after `n` fixed `0.05`
time-steps the wave time equals `n/20`, the height of bar `i` is the
closed-form pure function of (index, elapsed ticks, bar count) — so two
runs replaying the same tick sequence with the same bar count (even
with different rounding settings, which do not enter the height) give
identical heights for every bar. -/
theorem idle_wave_deterministic (env : WaveEnv) (barCount : Nat) (rounding : Bool)
    (n i : Nat) (hi : i < barCount) :
    (idleTrace env (liveConfig barCount rounding) n).1 = (n : ℚ) / 20
    ∧ ((idleTrace env (liveConfig barCount rounding) (n + 1)).2.getD i ⟨0, 0, 0, 0⟩).h
        = idlePureHeight env barCount i (n + 1)
    ∧ (∀ rounding2 : Bool,
        ((idleTrace env (liveConfig barCount rounding2) (n + 1)).2.getD i ⟨0, 0, 0, 0⟩).h
          = ((idleTrace env (liveConfig barCount rounding) (n + 1)).2.getD i ⟨0, 0, 0, 0⟩).h) := by
  have key : ∀ r : Bool,
      ((idleTrace env (liveConfig barCount r) (n + 1)).2.getD i ⟨0, 0, 0, 0⟩).h
        = idlePureHeight env barCount i (n + 1) := by
    intro r
    have ht := idleTrace_time env (liveConfig barCount r) n
    simp only [idleTrace, drawScrollingWave, ht]
    rw [getD_range_map _ _ _ _ (by simpa [liveConfig] using hi)]
    have harg : ((n : ℚ)) / 20 + 1 / 20 = (((n + 1 : Nat)) : ℚ) / 20 := by
      push_cast
      ring
    rw [harg, waveBar_h_pure]
  exact ⟨idleTrace_time env (liveConfig barCount rounding) n, key rounding,
    fun r2 => (key r2).trans (key rounding).symm⟩

/-- Witness for C7: with the zero-sine runtime and 3 bars, the wave time
after one tick is `1/20` and bar 1's height after two ticks matches the
pure closed form. -/
theorem idle_wave_deterministic_witness :
    (idleTrace zeroWave (liveConfig 3 false) 1).1 = ((1 : Nat) : ℚ) / 20
    ∧ ((idleTrace zeroWave (liveConfig 3 false) 2).2.getD 1 ⟨0, 0, 0, 0⟩).h
        = idlePureHeight zeroWave 3 1 2 :=
  ⟨(idle_wave_deterministic zeroWave 3 false 1 1 (by norm_num)).1,
   (idle_wave_deterministic zeroWave 3 false 1 1 (by norm_num)).2.1⟩

/-- C8 counterexample: `animate` has no `try`/`catch`, so a frame in
which a drawing step throws returns the exception instead of completing:
at a concrete frame (surface present, real audio `[200]`, the draw step
throwing) the result is `Except.error "draw"` — the exception is not
caught inside the frame and the `requestAnimationFrame` line is never
reached, refuting the claim at this input. -/
theorem animate_throw_counterexample :
    animate ⟨true, true, true, [200], 8, false, zeroWave, false, false, true⟩ 0
      = Except.error "draw" := by
  norm_num [animate, hasRealAudio, avgVolume, snapshotSum]

/-- C8 amended: exceptions raised during a render frame (sampling,
clearing or drawing) are not caught inside the frame: whenever such a
step throws, the frame aborts with that exception before the next
animation frame is scheduled, so the loop stops; a frame in which no
step throws completes and schedules the next frame. -/
theorem animate_throw_propagates (ap dp st ct dt : Bool) (snap : List Nat)
    (bc : Nat) (br : Bool) (wv : WaveEnv) (t : ℚ) :
    (((st = true ∧ ap = true ∧ dp = true) ∨ ct = true ∨ dt = true) →
      isError (animate ⟨true, ap, dp, snap, bc, br, wv, st, ct, dt⟩ t) = true)
    ∧ (st = false → ct = false → dt = false →
      ∃ w, animate ⟨true, ap, dp, snap, bc, br, wv, st, ct, dt⟩ t = Except.ok w
        ∧ w.2.scheduledNext = true) := by
  constructor
  · rintro (⟨rfl, rfl, rfl⟩ | rfl | rfl)
    · simp [animate, isError]
    · cases st <;> cases ap <;> cases dp <;> simp [animate, isError]
    · cases st <;> cases ap <;> cases dp <;> cases ct <;> simp [animate, isError]
  · rintro rfl rfl rfl
    cases ap <;> cases dp <;> cases hra : hasRealAudio snap <;> simp [animate, hra]

/-- Witness for the amended C8: a frame whose clear step throws ends in
an uncaught exception. -/
theorem animate_throw_propagates_witness :
    isError (animate ⟨true, false, false, [], 4, false, zeroWave, false, true, false⟩ 0) = true :=
  (animate_throw_propagates false false false true false [] 4 false zeroWave 0).1
    (Or.inr (Or.inl rfl))

/-- C9 counterexample: when the acquisition routine finds no media
element it creates no audio context, so the `.then` handler resets the
have-tried flag and the very next poll attempts again: polling
`[playing, playing]` with no media element makes two acquisition
attempts although the play-state signal made only one not-playing →
playing transition, refuting "exactly once per transition". -/
theorem poll_two_attempts_one_transition :
    (pollRun ⟨none, false, false, false, false, false, false⟩ [true, true]).2.2 = 2
    ∧ countTransitions false [true, true] = 1 := by
  decide

/-- C9 amended: a poll attempts acquisition only when it observes
playing with the have-tried flag clear (so never while the flag is set,
and at most once per poll); such an attempt leaves the flag set exactly
when the audio context and analyser exist afterwards; a poll observing
not-playing clears the flag.  Hence after an attempt that created the
context and analyser (even one whose tap failed), subsequent polls
while playing make no further attempts and re-attempt happens on the
next observed playing transition; but after an attempt that found no
media element the flag is reset at once and the very next playing poll
re-attempts, even without a new transition. -/
theorem poll_step_spec (playing : Bool) (env : InitEnv) (hasTried : Bool) (s : VizState) :
    (hasTried = true → (checkAndInit playing env hasTried s).attempts = 0)
    ∧ (playing = false → (checkAndInit playing env hasTried s).hasTried = false
        ∧ (checkAndInit playing env hasTried s).attempts = 0)
    ∧ (playing = true → hasTried = false →
        (checkAndInit playing env hasTried s).attempts = 1
        ∧ ((checkAndInit playing env hasTried s).hasTried = true
            ↔ ((initAudioVisualizer env s).state.audioContext = true
               ∧ (initAudioVisualizer env s).state.analyser = true))) := by
  refine ⟨?_, ?_, ?_⟩
  · intro h
    cases playing <;> simp [checkAndInit, h] <;> split_ifs <;> simp
  · intro h
    subst h
    cases hasTried <;> simp [checkAndInit] <;> split_ifs <;> simp
  · intro hp ht
    subst hp; subst ht
    simp [checkAndInit] <;> split_ifs <;> simp

/-- Witness for the amended C9: a playing poll with the flag clear makes
exactly one acquisition attempt. -/
theorem poll_step_spec_witness :
    (checkAndInit true ⟨none, false, false, false, false, false, false⟩ false VizState.initial).attempts = 1 :=
  ((poll_step_spec true _ false VizState.initial).2.2 rfl rfl).1

/-- C10: bars-mode heights are not clamped to the surface: with the
configured sensitivity `1.5` and height scale `40/255`, every bin value
above 170 yields a bar height exceeding the 40-pixel surface height and
a negative `y`-coordinate, so such bars are drawn taller than the
surface. -/
theorem bars_height_unclamped (v : Nat) (hv : 170 < v) :
    40 < ((drawBars (liveConfig 1 false) [v]).getD 0 ⟨0, 0, 0, 0⟩).h
    ∧ ((drawBars (liveConfig 1 false) [v]).getD 0 ⟨0, 0, 0, 0⟩).y < 0 := by
  rw [drawBars_getD (liveConfig 1 false) [v] 0 (by norm_num [liveConfig]) ⟨0, 0, 0, 0⟩]
  have hv' : (170 : ℚ) < (v : ℚ) := by exact_mod_cast hv
  simp only [barRect, liveConfig]
  norm_num
  nlinarith

/-- Witness for C10: bin value 200 yields a bar taller than the
surface. -/
theorem bars_height_unclamped_witness :
    40 < ((drawBars (liveConfig 1 false) [200]).getD 0 ⟨0, 0, 0, 0⟩).h
    ∧ ((drawBars (liveConfig 1 false) [200]).getD 0 ⟨0, 0, 0, 0⟩).y < 0 :=
  bars_height_unclamped 200 (by norm_num)

end AudioVisualizer
